import Mathlib

/-!
Verification development for the car-game per-frame vehicle simulation
(`src/main.ts`, class `InfiniteRacer`).

The per-frame update `updateCarMovement` and its helpers (`checkCollision`,
`createBoostEffect`, `respawnCar`, `startVibration`, the camera-toggle branch
of `handleKeyDown`) are embedded shallowly:

* three.js vectors become `Vec3` over `ℝ`; `Math.sin`/`Math.cos`/`Math.sqrt`
  become `Real.sin`/`Real.cos`/`Real.sqrt`.
* the mutable class fields read and written by the frame step become the
  record `GameState`; the key-flag fields (`isAccelerating`, `isBraking`,
  `isTurningLeft`, `isTurningRight`, `isBoosting`), which are constant during
  one call, become the record `Inputs`.
* sources of nondeterminism consumed during one call (the obstacle list,
  `Date.now()`, the `Math.random()` draws of the vibration jitter and of the
  flame flicker) are passed in as the record `Env`.  The two `Date.now()`
  calls that can occur in one frame (in `startVibration` and in the vibration
  block) are modelled as the same instant.
* the guard `if (!this.car) return;` is dropped: every statement below is
  about frames on which the car model is loaded.

Sequential field mutations are turned into explicit state passing, keeping
the source's exact evaluation order: speed update (with boost-flame spawn),
turning, translation, camera update, particle decay, boundary check (early
return on respawn), collision check (first hit wins), vibration.
-/

open Classical

noncomputable section

namespace CarGame

/-- A three.js `Vector3`. -/
structure Vec3 where
  x : ℝ
  y : ℝ
  z : ℝ

/-- `Vector3.add`. -/
def addV (a b : Vec3) : Vec3 := ⟨a.x + b.x, a.y + b.y, a.z + b.z⟩

/-- `Vector3.multiplyScalar`. -/
def smulV (k : ℝ) (v : Vec3) : Vec3 := ⟨k * v.x, k * v.y, k * v.z⟩

/-- `Vector3.lerp(target, alpha)`: `this + (target - this) * alpha`. -/
def lerpV (a target : Vec3) (alpha : ℝ) : Vec3 :=
  ⟨a.x + (target.x - a.x) * alpha, a.y + (target.y - a.y) * alpha,
    a.z + (target.z - a.z) * alpha⟩

/-- A boost-flame mesh: the fields of the particle the frame loop reads and
writes (`material.opacity`, `scale`, `position`, `rotation.y`). -/
structure Particle where
  position : Vec3
  rotY : ℝ
  opacity : ℝ
  scale : Vec3

/-- The key-state fields of `InfiniteRacer` read by `updateCarMovement`;
they are constant during one call. -/
structure Inputs where
  isAccelerating : Bool
  isBraking : Bool
  isTurningLeft : Bool
  isTurningRight : Bool
  isBoosting : Bool
  deriving Repr

/-- The mutable fields of `InfiniteRacer` read or written by the frame step. -/
structure GameState where
  carPos : Vec3
  carRotY : ℝ
  speed : ℝ
  isVibrating : Bool
  vibrationTime : ℝ
  boostParticles : List Particle
  cameraPos : Vec3
  cameraLook : Vec3
  orbitEnabled : Bool
  orbitTarget : Vec3
  isOrbitMode : Bool

/-- External data consumed by one call of the frame step: the collidable
object positions, `Date.now()`, and the `Math.random()` draws (vibration
jitter `jx`, `jy`; flame flicker `f1 … f4`). -/
structure Env where
  obstacles : List Vec3
  now : ℝ
  jx : ℝ
  jy : ℝ
  f1 : ℝ
  f2 : ℝ
  f3 : ℝ
  f4 : ℝ

-- Class-field constants of `InfiniteRacer`.

/-- `this.maxSpeed` (the turn-rate normaliser). -/
def maxSpeed : ℝ := 3
/-- `this.normalMaxSpeed`. -/
def normalMaxSpeed : ℝ := 2
/-- `this.boostMaxSpeed`. -/
def boostMaxSpeed : ℝ := 10
/-- `this.acceleration`. -/
def acceleration : ℝ := 0.1
/-- `this.turnSpeed`. -/
def turnSpeed : ℝ := 0.0125
/-- `this.spawnPoint`. -/
def spawnPoint : Vec3 := ⟨0, 0.5, 0⟩
/-- `this.boundarySize`. -/
def boundarySize : ℝ := 500
/-- `this.vibrationIntensity`. -/
def vibrationIntensity : ℝ := 0.1
/-- `this.vibrationDuration`. -/
def vibrationDuration : ℝ := 1000
/-- `treeRadius` in `checkCollision`. -/
def treeRadius : ℝ := 1.5
/-- `carRadius` in `checkCollision`. -/
def carRadius : ℝ := 1.0

/-- `checkCollision(carPosition, treePosition)`: planar X-Z Euclidean
distance below the sum of the fixed radii. -/
def checkCollision (carPosition treePosition : Vec3) : Prop :=
  Real.sqrt ((carPosition.x - treePosition.x) * (carPosition.x - treePosition.x) +
      (carPosition.z - treePosition.z) * (carPosition.z - treePosition.z)) <
    treeRadius + carRadius

/-- The collision loop of `updateCarMovement`: scan the object list in order
and stop at the first hit (`break`). -/
def findCollision (pos : Vec3) : List Vec3 → Option Vec3
  | [] => none
  | o :: rest => if checkCollision pos o then some o else findCollision pos rest

/-- `currentMaxSpeed = this.isBoosting ? this.boostMaxSpeed : this.normalMaxSpeed`. -/
def currentMaxSpeed (inp : Inputs) : ℝ :=
  if inp.isBoosting then boostMaxSpeed else normalMaxSpeed

/-- The speed update of `updateCarMovement` (accelerate / brake / friction). -/
def updatedSpeed (s : GameState) (inp : Inputs) : ℝ :=
  if inp.isAccelerating then
    min (s.speed + acceleration) (currentMaxSpeed inp)
  else if inp.isBraking then
    max (s.speed - acceleration * 2) (-(currentMaxSpeed inp) / 2)
  else if |s.speed| > 0.01 then s.speed * 0.95 else 0

/-- The turning update: both turn flags are tested independently, each
scaling the fixed turn rate by `|speed| / maxSpeed` of the updated speed. -/
def updatedRotY (s : GameState) (inp : Inputs) : ℝ :=
  let r1 := if inp.isTurningLeft then
      s.carRotY + turnSpeed * (|updatedSpeed s inp| / maxSpeed)
    else s.carRotY
  if inp.isTurningRight then
    r1 - turnSpeed * (|updatedSpeed s inp| / maxSpeed)
  else r1

/-- The translation: `position += (sin rotY, 0, cos rotY) * speed * 0.16`,
using the updated speed and the updated rotation. -/
def newPosition (s : GameState) (inp : Inputs) : Vec3 :=
  ⟨s.carPos.x + Real.sin (updatedRotY s inp) * (updatedSpeed s inp * 0.16),
    s.carPos.y,
    s.carPos.z + Real.cos (updatedRotY s inp) * (updatedSpeed s inp * 0.16)⟩

/-- The chase-camera offset `(-sin θ * 15, 7, -cos θ * 15)`. -/
def chaseOffset (θ : ℝ) : Vec3 := ⟨-(Real.sin θ) * 15, 7, -(Real.cos θ) * 15⟩

/-- The chase-camera look-at point, 10 units ahead of the car. -/
def lookAhead (p : Vec3) (θ : ℝ) : Vec3 :=
  ⟨p.x + Real.sin θ * 10, p.y, p.z + Real.cos θ * 10⟩

/-- Left-exhaust offset in `createBoostEffect` (`backOffsetLeft = 1.2`,
`sideOffsetLeft = 0.4`, `heightOffset = 0.3`). -/
def leftOffset (θ : ℝ) : Vec3 :=
  ⟨-(Real.sin θ) * 1.2 - Real.cos θ * 0.4, 0.3,
    -(Real.cos θ) * 1.2 + Real.sin θ * 0.4⟩

/-- Right-exhaust offset in `createBoostEffect` (`backOffsetRight = 1.0`,
`sideOffsetRight = 0.35`, `heightOffset = 0.3`). -/
def rightOffset (θ : ℝ) : Vec3 :=
  ⟨-(Real.sin θ) * 1.0 + Real.cos θ * 0.35, 0.3,
    -(Real.cos θ) * 1.0 - Real.sin θ * 0.35⟩

/-- The left flame built by `createBoostEffect`: material opacity `0.8`,
flicker scale `(0.8 + random * 0.4, 0.8 + random * 0.4, 1)`. -/
def leftFlame (s : GameState) (env : Env) : Particle :=
  { position := addV s.carPos (leftOffset s.carRotY)
    rotY := s.carRotY
    opacity := 0.8
    scale := ⟨0.8 + env.f1 * 0.4, 0.8 + env.f2 * 0.4, 1⟩ }

/-- The right flame built by `createBoostEffect`. -/
def rightFlame (s : GameState) (env : Env) : Particle :=
  { position := addV s.carPos (rightOffset s.carRotY)
    rotY := s.carRotY
    opacity := 0.8
    scale := ⟨0.8 + env.f3 * 0.4, 0.8 + env.f4 * 0.4, 1⟩ }

/-- The queue update of `createBoostEffect`: push both flames, then
`while (length > 12) shift()`, i.e. drop the oldest entries down to 12. -/
def createBoostQueue (l : List Particle) (left right : Particle) : List Particle :=
  (l ++ [left, right]).drop ((l ++ [left, right]).length - 12)

/-- The boost-particle list after the speed-update block: inside the
`isAccelerating` branch, `createBoostEffect()` runs when
`isBoosting && speed > normalMaxSpeed` (with the already-updated speed and
the not-yet-updated position and rotation). -/
def spawnedParticles (s : GameState) (inp : Inputs) (env : Env) : List Particle :=
  if inp.isAccelerating then
    if inp.isBoosting ∧ normalMaxSpeed < updatedSpeed s inp then
      createBoostQueue s.boostParticles (leftFlame s env) (rightFlame s env)
    else s.boostParticles
  else s.boostParticles

/-- One decay tick of a flame: `opacity -= 0.15; scale *= 0.95`. -/
def decayParticle (p : Particle) : Particle :=
  { p with opacity := p.opacity - 0.15, scale := smulV 0.95 p.scale }

/-- The particle-cleanup filter of `updateCarMovement`: decay each particle
and drop it exactly when the decayed opacity is `≤ 0`. -/
def tickParticles : List Particle → List Particle
  | [] => []
  | p :: rest =>
      if (decayParticle p).opacity ≤ 0 then tickParticles rest
      else decayParticle p :: tickParticles rest

/-- All mutations of `updateCarMovement` that precede the boundary check:
speed update (with flame spawn), turning, translation, camera update,
particle decay. -/
def preBoundary (s : GameState) (inp : Inputs) (env : Env) : GameState :=
  { s with
    speed := updatedSpeed s inp
    carRotY := updatedRotY s inp
    carPos := newPosition s inp
    boostParticles := tickParticles (spawnedParticles s inp env)
    cameraPos :=
      if s.isOrbitMode then s.cameraPos
      else lerpV s.cameraPos (addV (newPosition s inp) (chaseOffset (updatedRotY s inp))) 0.1
    cameraLook :=
      if s.isOrbitMode then s.cameraLook
      else lookAhead (newPosition s inp) (updatedRotY s inp)
    orbitEnabled := s.isOrbitMode
    orbitTarget := if s.isOrbitMode then newPosition s inp else s.orbitTarget }

/-- `respawnCar()`: reset position to the spawn point, zero the rotation,
zero the speed, clear the vibration flag. -/
def respawnCar (s : GameState) : GameState :=
  { s with carPos := spawnPoint, carRotY := 0, speed := 0, isVibrating := false }

/-- The collision block: on the first hit, copy back the pre-step position,
set `speed = -speed * 0.5`, and run `startVibration()`. -/
def collisionPhase (prevPos : Vec3) (obstacles : List Vec3) (now : ℝ)
    (t : GameState) : GameState :=
  match findCollision t.carPos obstacles with
  | some _ =>
      { t with
        carPos := prevPos
        speed := -t.speed * 0.5
        isVibrating := true
        vibrationTime := now }
  | none => t

/-- The vibration block: while the elapsed time is below the duration, add
`(random - 0.5) * intensity` to `x` and `y`; otherwise clear the flag. -/
def vibrationPhase (env : Env) (t : GameState) : GameState :=
  if t.isVibrating then
    if env.now - t.vibrationTime < vibrationDuration then
      { t with carPos :=
          ⟨t.carPos.x + (env.jx - 0.5) * vibrationIntensity,
            t.carPos.y + (env.jy - 0.5) * vibrationIntensity,
            t.carPos.z⟩ }
    else { t with isVibrating := false }
  else t

/-- `updateCarMovement()`: the full per-frame step, in source order.  The
boundary check comes after the camera update and the particle decay and
before the collision check; a boundary hit returns early, skipping the
collision and vibration blocks. -/
def updateCarMovement (s : GameState) (inp : Inputs) (env : Env) : GameState :=
  if |(preBoundary s inp env).carPos.x| > boundarySize ∨
      |(preBoundary s inp env).carPos.z| > boundarySize then
    respawnCar (preBoundary s inp env)
  else
    vibrationPhase env
      (collisionPhase s.carPos env.obstacles env.now (preBoundary s inp env))

/-- The state produced by the collision response on a colliding frame. -/
def collisionOutcome (s : GameState) (inp : Inputs) (env : Env) : GameState :=
  { preBoundary s inp env with
    carPos := s.carPos
    speed := -(updatedSpeed s inp) * 0.5
    isVibrating := true
    vibrationTime := env.now }

/-- The `case 'c'` branch of `handleKeyDown` (the camera-toggle handler that
is actually registered): flip `isOrbitMode`; when the new mode is orbit, snap
the camera to the chase position and re-target the orbit controls; when the
new mode is chase, change nothing else. -/
def toggleCamera (s : GameState) : GameState :=
  if s.isOrbitMode then { s with isOrbitMode := false }
  else
    { s with
      isOrbitMode := true
      cameraPos := addV s.carPos (chaseOffset s.carRotY)
      orbitTarget := s.carPos }

/-- The state after construction: car placed at `(0, 0.5, 0)` with rotation
`0` by `loadCarModel`, camera at `(0, 10, -20)` looking at the origin, orbit
mode off, no particles, no vibration. -/
def initialState : GameState :=
  { carPos := ⟨0, 0.5, 0⟩
    carRotY := 0
    speed := 0
    isVibrating := false
    vibrationTime := 0
    boostParticles := []
    cameraPos := ⟨0, 10, -20⟩
    cameraLook := ⟨0, 0, 0⟩
    orbitEnabled := false
    orbitTarget := ⟨0, 0, 0⟩
    isOrbitMode := false }

/-- States reachable from construction through frame steps and camera
toggles. -/
inductive Reachable : GameState → Prop
  | init : Reachable initialState
  | step (s : GameState) (inp : Inputs) (env : Env) :
      Reachable s → Reachable (updateCarMovement s inp env)
  | toggle (s : GameState) : Reachable s → Reachable (toggleCamera s)

/-- Input snapshot of an accelerating frame (`b` = boost key held). -/
def runInputs (b : Bool) : Inputs :=
  { isAccelerating := true, isBraking := false, isTurningLeft := false,
    isTurningRight := false, isBoosting := b }

/-- Input snapshot of a coasting frame (no keys held). -/
def coastInputs : Inputs :=
  { isAccelerating := false, isBraking := false, isTurningLeft := false,
    isTurningRight := false, isBoosting := false }

/-- A frame environment with no obstacles and midpoint random draws. -/
def quietEnv : Env :=
  { obstacles := [], now := 0, jx := 0.5, jy := 0.5,
    f1 := 0, f2 := 0, f3 := 0, f4 := 0 }

/-- The trajectory that holds the accelerate key (and boost iff `b`) from
construction, over empty terrain. -/
def accelRun (b : Bool) : ℕ → GameState
  | 0 => initialState
  | n + 1 => updateCarMovement (accelRun b n) (runInputs b) quietEnv

-- Concrete probe states and environments used to instantiate the claims.

/-- Car at the spawn point moving forward at speed 2. -/
def probeCollisionState : GameState := { initialState with speed := 2 }

/-- A single tree straight ahead at the origin. -/
def probeCollisionEnv : Env := { quietEnv with obstacles := [⟨0, 0, 0⟩] }

/-- Car just inside the boundary, moving out, with a tree just beyond the
boundary line: the post-translation position is simultaneously out of bounds
and within collision range of the first obstacle. -/
def cex1State : GameState :=
  { initialState with carPos := ⟨100, 0.5, 499.8⟩, speed := 2 }

def cex1Obstacle : Vec3 := ⟨100, 0, 500.5⟩

def cex1Env : Env := { quietEnv with obstacles := [cex1Obstacle] }

/-- A live flame one frame old. -/
def cexParticle : Particle :=
  { position := ⟨0, 0, 0⟩, rotY := 0, opacity := 0.8, scale := ⟨1, 1, 1⟩ }

/-- Car about to cross the boundary while also entering collision range,
with one live flame in the queue. -/
def cex3State : GameState :=
  { initialState with
    carPos := ⟨0, 0.5, 499.9⟩
    speed := 2
    boostParticles := [cexParticle] }

def cex3Obstacle : Vec3 := ⟨0, 0, 500.5⟩

def cex3Env : Env := { quietEnv with obstacles := [cex3Obstacle] }

/-- Car reversing at speed `-2`. -/
def cex4State : GameState := { initialState with speed := -2 }

/-- Brake and boost held, accelerate released. -/
def brakeBoostInputs : Inputs :=
  { isAccelerating := false, isBraking := true, isTurningLeft := false,
    isTurningRight := false, isBoosting := true }

/-- Boost held while coasting (accelerate released). -/
def coastBoostInputs : Inputs :=
  { isAccelerating := false, isBraking := false, isTurningLeft := false,
    isTurningRight := false, isBoosting := true }

/-- Car still above the normal ceiling after a boost. -/
def cex8State : GameState := { initialState with speed := 3 }

/-- Car at speed 2.5, between the normal and the boosted ceiling. -/
def wit8State : GameState := { initialState with speed := 2.5 }

/-- Car already past the boundary on the `z` axis. -/
def wit2State : GameState := { initialState with carPos := ⟨0, 0.5, 600⟩ }

/-- Car already past the boundary on the `x` axis. -/
def wit3State : GameState := { initialState with carPos := ⟨600, 0.5, 0⟩ }

/-- Orbit mode active with the camera far from the chase position. -/
def cex9State : GameState :=
  { initialState with isOrbitMode := true, cameraPos := ⟨100, 0, 0⟩ }

/-- Squared form of the collision predicate of `checkCollision`. -/
lemma checkCollision_iff (c t : Vec3) :
    checkCollision c t ↔
      (c.x - t.x) * (c.x - t.x) + (c.z - t.z) * (c.z - t.z) < 6.25 := by
  unfold checkCollision treeRadius carRadius
  rw [show (1.5 : ℝ) + 1.0 = 2.5 by norm_num,
    Real.sqrt_lt' (by norm_num : (0:ℝ) < 2.5)]
  norm_num

/-- The turning update written as one algebraic expression. -/
lemma updatedRotY_eq (s : GameState) (inp : Inputs) :
    updatedRotY s inp =
      s.carRotY +
        (if inp.isTurningLeft then turnSpeed * (|updatedSpeed s inp| / maxSpeed) else 0) -
        (if inp.isTurningRight then turnSpeed * (|updatedSpeed s inp| / maxSpeed) else 0) := by
  unfold updatedRotY
  cases h1 : inp.isTurningLeft <;> cases h2 : inp.isTurningRight <;>
    simp [h1, h2]

lemma preBoundary_carPos (s : GameState) (inp : Inputs) (env : Env) :
    (preBoundary s inp env).carPos = newPosition s inp := rfl

/-- The in-bounds branch of the frame step. -/
lemma update_inBounds (s : GameState) (inp : Inputs) (env : Env)
    (hx : |(newPosition s inp).x| ≤ boundarySize)
    (hz : |(newPosition s inp).z| ≤ boundarySize) :
    updateCarMovement s inp env =
      vibrationPhase env
        (collisionPhase s.carPos env.obstacles env.now (preBoundary s inp env)) := by
  unfold updateCarMovement
  rw [if_neg]
  push_neg
  exact ⟨by simpa [preBoundary] using hx, by simpa [preBoundary] using hz⟩

/-- The out-of-bounds branch of the frame step. -/
lemma update_outBounds (s : GameState) (inp : Inputs) (env : Env)
    (h : |(newPosition s inp).x| > boundarySize ∨
      |(newPosition s inp).z| > boundarySize) :
    updateCarMovement s inp env = respawnCar (preBoundary s inp env) := by
  unfold updateCarMovement
  rw [if_pos]
  simpa [preBoundary] using h

lemma findCollision_nil (pos : Vec3) : findCollision pos [] = none := rfl

lemma findCollision_cons_hit {pos o : Vec3} (rest : List Vec3)
    (h : checkCollision pos o) : findCollision pos (o :: rest) = some o := by
  unfold findCollision
  rw [if_pos h]

lemma collisionPhase_none (prevPos : Vec3) (obstacles : List Vec3) (now : ℝ)
    (t : GameState) (h : findCollision t.carPos obstacles = none) :
    collisionPhase prevPos obstacles now t = t := by
  unfold collisionPhase
  rw [h]

lemma collisionPhase_hit (prevPos o : Vec3) (rest : List Vec3) (now : ℝ)
    (t : GameState) (h : checkCollision t.carPos o) :
    collisionPhase prevPos (o :: rest) now t =
      { t with
        carPos := prevPos
        speed := -t.speed * 0.5
        isVibrating := true
        vibrationTime := now } := by
  unfold collisionPhase
  rw [findCollision_cons_hit rest h]

lemma vibrationPhase_of_not (env : Env) (t : GameState)
    (h : t.isVibrating = false) : vibrationPhase env t = t := by
  unfold vibrationPhase
  rw [h]
  simp

lemma vibrationPhase_speed (env : Env) (t : GameState) :
    (vibrationPhase env t).speed = t.speed := by
  unfold vibrationPhase
  split
  · split <;> rfl
  · rfl

lemma vibrationPhase_particles (env : Env) (t : GameState) :
    (vibrationPhase env t).boostParticles = t.boostParticles := by
  unfold vibrationPhase
  split
  · split <;> rfl
  · rfl

lemma collisionPhase_particles (prevPos : Vec3) (obstacles : List Vec3)
    (now : ℝ) (t : GameState) :
    (collisionPhase prevPos obstacles now t).boostParticles = t.boostParticles := by
  unfold collisionPhase
  split <;> rfl

/-- A collision-free frame with no vibration reduces to the pre-boundary
mutations alone. -/
lemma step_quiet (s : GameState) (inp : Inputs) (env : Env)
    (hobs : env.obstacles = []) (hvib : s.isVibrating = false)
    (hx : |(newPosition s inp).x| ≤ boundarySize)
    (hz : |(newPosition s inp).z| ≤ boundarySize) :
    updateCarMovement s inp env = preBoundary s inp env := by
  rw [update_inBounds s inp env hx hz, hobs,
    collisionPhase_none _ _ _ _ (findCollision_nil _), vibrationPhase_of_not]
  simp [preBoundary, hvib]

lemma tickParticles_length (l : List Particle) :
    (tickParticles l).length ≤ l.length := by
  induction l with
  | nil => simp [tickParticles]
  | cons p rest ih =>
      unfold tickParticles
      split
      · exact le_trans ih (Nat.le_succ _)
      · simpa using ih

/-- Membership in the ticked list: exactly the decayed particles whose
decayed opacity is still positive. -/
lemma tickParticles_mem (l : List Particle) (p : Particle) :
    p ∈ tickParticles l ↔ p ∈ l.map decayParticle ∧ 0 < p.opacity := by
  induction l with
  | nil => simp [tickParticles]
  | cons q rest ih =>
      unfold tickParticles
      by_cases h : (decayParticle q).opacity ≤ 0
      · rw [if_pos h]
        rw [ih]
        simp only [List.map_cons, List.mem_cons]
        constructor
        · rintro ⟨hm, hp⟩
          exact ⟨Or.inr hm, hp⟩
        · rintro ⟨hm | hm, hp⟩
          · rw [hm] at hp
            linarith
          · exact ⟨hm, hp⟩
      · rw [if_neg h]
        push_neg at h
        simp only [List.mem_cons, ih, List.map_cons]
        constructor
        · rintro (rfl | ⟨hm, hp⟩)
          · exact ⟨Or.inl rfl, h⟩
          · exact ⟨Or.inr hm, hp⟩
        · rintro ⟨hm | hm, hp⟩
          · exact Or.inl hm
          · exact Or.inr ⟨hm, hp⟩

lemma createBoostQueue_length (l : List Particle) (p q : Particle) :
    (createBoostQueue l p q).length = min (l.length + 2) 12 := by
  unfold createBoostQueue
  rw [List.length_drop]
  simp
  omega

lemma createBoostQueue_isSuffix (l : List Particle) (p q : Particle) :
    List.IsSuffix (createBoostQueue l p q) (l ++ [p, q]) :=
  List.drop_suffix _ _

lemma spawnedParticles_length (s : GameState) (inp : Inputs) (env : Env)
    (h : s.boostParticles.length ≤ 12) :
    (spawnedParticles s inp env).length ≤ 12 := by
  unfold spawnedParticles
  split
  · split
    · rw [createBoostQueue_length]
      omega
    · exact h
  · exact h

/-- The particle list produced by a full frame: the spawn of the speed-update
block followed by the decay filter, in every branch of the step. -/
lemma particles_after_step (s : GameState) (inp : Inputs) (env : Env) :
    (updateCarMovement s inp env).boostParticles =
      tickParticles (spawnedParticles s inp env) := by
  unfold updateCarMovement
  split
  · simp [respawnCar, preBoundary]
  · rw [vibrationPhase_particles, collisionPhase_particles]
    simp [preBoundary]

lemma currentMaxSpeed_bounds (inp : Inputs) :
    (2:ℝ) ≤ currentMaxSpeed inp ∧ currentMaxSpeed inp ≤ 10 := by
  unfold currentMaxSpeed boostMaxSpeed normalMaxSpeed
  split <;> norm_num

/-- One speed update keeps the speed inside `[-5, 10]`. -/
lemma updatedSpeed_bounds (s : GameState) (inp : Inputs)
    (h1 : -5 ≤ s.speed) (h2 : s.speed ≤ 10) :
    -5 ≤ updatedSpeed s inp ∧ updatedSpeed s inp ≤ 10 := by
  obtain ⟨hc1, hc2⟩ := currentMaxSpeed_bounds inp
  unfold updatedSpeed acceleration
  split
  · exact ⟨le_min (by linarith) (by linarith),
      le_trans (min_le_right _ _) hc2⟩
  · split
    · exact ⟨le_trans (by linarith) (le_max_right _ _),
        max_le (by linarith) (by linarith)⟩
    · split
      · constructor <;> nlinarith
      · norm_num

lemma preBoundary_speed (s : GameState) (inp : Inputs) (env : Env) :
    (preBoundary s inp env).speed = updatedSpeed s inp := rfl

lemma preBoundary_rotY (s : GameState) (inp : Inputs) (env : Env) :
    (preBoundary s inp env).carRotY = updatedRotY s inp := rfl

lemma preBoundary_isVibrating (s : GameState) (inp : Inputs) (env : Env) :
    (preBoundary s inp env).isVibrating = s.isVibrating := rfl

lemma preBoundary_particles (s : GameState) (inp : Inputs) (env : Env) :
    (preBoundary s inp env).boostParticles =
      tickParticles (spawnedParticles s inp env) := rfl

/-- One full frame keeps the speed inside `[-5, 10]`. -/
lemma step_speed_bounds (s : GameState) (inp : Inputs) (env : Env)
    (h1 : -5 ≤ s.speed) (h2 : s.speed ≤ 10) :
    -5 ≤ (updateCarMovement s inp env).speed ∧
      (updateCarMovement s inp env).speed ≤ 10 := by
  obtain ⟨hu1, hu2⟩ := updatedSpeed_bounds s inp h1 h2
  unfold updateCarMovement
  split
  · simp [respawnCar]
  · rw [vibrationPhase_speed]
    unfold collisionPhase
    split
    · simp only [preBoundary_speed]
      constructor <;> nlinarith
    · rw [preBoundary_speed]
      exact ⟨hu1, hu2⟩

/-- Every reachable speed lies in `[-5, 10]`, that is, inside
`[-boostMaxSpeed/2, boostMaxSpeed]`. -/
lemma reachable_speed_bounds : ∀ s, Reachable s → -5 ≤ s.speed ∧ s.speed ≤ 10 := by
  intro s h
  induction h with
  | init => simp [initialState]
  | step s inp env _ ih => exact step_speed_bounds s inp env ih.1 ih.2
  | toggle s _ ih =>
      unfold toggleCamera
      split <;> simpa using ih

/-- Every reachable particle queue holds at most 12 entries. -/
lemma reachable_particles_cap : ∀ s, Reachable s → s.boostParticles.length ≤ 12 := by
  intro s h
  induction h with
  | init => simp [initialState]
  | step s inp env _ ih =>
      rw [particles_after_step]
      exact le_trans (tickParticles_length _) (spawnedParticles_length s inp env ih)
  | toggle s _ ih =>
      unfold toggleCamera
      split <;> simpa using ih

lemma updatedSpeed_accel (s : GameState) (inp : Inputs)
    (h : inp.isAccelerating = true) :
    updatedSpeed s inp = min (s.speed + acceleration) (currentMaxSpeed inp) := by
  unfold updatedSpeed
  rw [h]
  simp

lemma updatedSpeed_coast (s : GameState) (inp : Inputs)
    (hA : inp.isAccelerating = false) (hB : inp.isBraking = false) :
    updatedSpeed s inp = if |s.speed| > 0.01 then s.speed * 0.95 else 0 := by
  unfold updatedSpeed
  rw [hA, hB]
  simp

lemma updatedRotY_noturn (s : GameState) (inp : Inputs)
    (h1 : inp.isTurningLeft = false) (h2 : inp.isTurningRight = false) :
    updatedRotY s inp = s.carRotY := by
  unfold updatedRotY
  rw [h1, h2]
  simp

lemma newPosition_rot0 (s : GameState) (inp : Inputs)
    (h : updatedRotY s inp = 0) :
    newPosition s inp =
      ⟨s.carPos.x, s.carPos.y, s.carPos.z + updatedSpeed s inp * 0.16⟩ := by
  unfold newPosition
  rw [h]
  simp

lemma accelRun_reachable (b : Bool) (n : ℕ) : Reachable (accelRun b n) := by
  induction n with
  | zero => exact Reachable.init
  | succ n ih => exact Reachable.step _ _ _ ih

/-- Holding the accelerate key over empty terrain from construction: after
`n` frames (while `n * 0.1` stays below the active ceiling) the speed is
exactly `n * 0.1`, the heading is still `0`, the car has moved only along
`z`, and no vibration has started. -/
lemma accelRun_spec (b : Bool) :
    ∀ n : ℕ, n ≤ 100 → ((n : ℝ) * 0.1 ≤ currentMaxSpeed (runInputs b)) →
      (accelRun b n).speed = (n : ℝ) * 0.1 ∧
      (accelRun b n).carRotY = 0 ∧
      (accelRun b n).carPos.x = 0 ∧
      (accelRun b n).carPos.y = 0.5 ∧
      0 ≤ (accelRun b n).carPos.z ∧ (accelRun b n).carPos.z ≤ 1.6 * (n : ℝ) ∧
      (accelRun b n).isVibrating = false := by
  intro n
  induction n with
  | zero =>
      intro _ _
      simp [accelRun, initialState]
  | succ n ih =>
      intro hle hsp
      have hle' : n ≤ 100 := Nat.le_of_succ_le hle
      have hcast : ((n + 1 : ℕ) : ℝ) = (n : ℝ) + 1 := by push_cast; ring
      have hsp1 : ((n : ℝ) + 1) * 0.1 ≤ currentMaxSpeed (runInputs b) := by
        rw [hcast] at hsp
        exact hsp
      have hsp' : (n : ℝ) * 0.1 ≤ currentMaxSpeed (runInputs b) := by linarith
      obtain ⟨hS, hR, hX, hY, hZ0, hZ1, hV⟩ := ih hle' hsp'
      have hnle : (n : ℝ) + 1 ≤ 100 := by
        have : ((n + 1 : ℕ) : ℝ) ≤ 100 := by exact_mod_cast hle
        linarith
      have hspeed : updatedSpeed (accelRun b n) (runInputs b) = ((n : ℝ) + 1) * 0.1 := by
        rw [updatedSpeed_accel _ _ rfl, hS,
          min_eq_left (by unfold acceleration; linarith)]
        unfold acceleration
        ring
      have hrot : updatedRotY (accelRun b n) (runInputs b) = 0 := by
        rw [updatedRotY_noturn _ _ rfl rfl, hR]
      have hpos : newPosition (accelRun b n) (runInputs b) =
          ⟨(accelRun b n).carPos.x, (accelRun b n).carPos.y,
            (accelRun b n).carPos.z + ((n : ℝ) + 1) * 0.1 * 0.16⟩ := by
        rw [newPosition_rot0 _ _ hrot, hspeed]
      have hz' : 0 ≤ (accelRun b n).carPos.z + ((n : ℝ) + 1) * 0.1 * 0.16 ∧
          (accelRun b n).carPos.z + ((n : ℝ) + 1) * 0.1 * 0.16 ≤ 1.6 * ((n : ℝ) + 1) := by
        constructor <;> linarith
      have hstep : accelRun b (n + 1) = preBoundary (accelRun b n) (runInputs b) quietEnv := by
        show updateCarMovement (accelRun b n) (runInputs b) quietEnv = _
        refine step_quiet _ _ _ rfl hV ?_ ?_
        · rw [hpos]
          unfold boundarySize
          rw [hX]
          norm_num
        · rw [hpos]
          unfold boundarySize
          dsimp only
          rw [abs_le]
          constructor <;> linarith [hz'.1, hz'.2]
      rw [hstep]
      refine ⟨?_, ?_, ?_, ?_, ?_, ?_, ?_⟩
      · rw [preBoundary_speed, hspeed, hcast]
      · rw [preBoundary_rotY]
        exact hrot
      · rw [preBoundary_carPos, hpos]
        exact hX
      · rw [preBoundary_carPos, hpos]
        exact hY
      · rw [preBoundary_carPos, hpos]
        exact hz'.1
      · rw [preBoundary_carPos, hpos, hcast]
        exact hz'.2
      · rw [preBoundary_isVibrating]
        exact hV

/-- When the queue stays within capacity, the push of the two flames keeps
every old entry. -/
lemma createBoostQueue_small (l : List Particle) (p q : Particle)
    (h : l.length ≤ 10) : createBoostQueue l p q = l ++ [p, q] := by
  unfold createBoostQueue
  have h0 : (l ++ [p, q]).length - 12 = 0 := by
    simp
    omega
  rw [h0, List.drop_zero]

/-- On an in-bounds colliding frame (first obstacle hit), the step equals the
collision response followed by the vibration block. -/
lemma update_collision_eq (s : GameState) (inp : Inputs) (env : Env)
    (o : Vec3) (rest : List Vec3) (hobs : env.obstacles = o :: rest)
    (hx : |(newPosition s inp).x| ≤ boundarySize)
    (hz : |(newPosition s inp).z| ≤ boundarySize)
    (hhit : checkCollision (newPosition s inp) o) :
    updateCarMovement s inp env = vibrationPhase env (collisionOutcome s inp env) := by
  rw [update_inBounds s inp env hx hz, hobs,
    collisionPhase_hit _ _ _ _ _ (by rw [preBoundary_carPos]; exact hhit)]
  rfl

/-- Evaluation of the post-translation position of `probeCollisionState`
under coasting. -/
lemma probe_newPosition :
    newPosition probeCollisionState coastInputs = ⟨0, 0.5, 0.304⟩ := by
  norm_num [newPosition, updatedSpeed, updatedRotY, probeCollisionState,
    initialState, coastInputs]

lemma probe_hit :
    checkCollision (newPosition probeCollisionState coastInputs) ⟨0, 0, 0⟩ := by
  rw [checkCollision_iff, probe_newPosition]
  norm_num

lemma probe_inBounds :
    |(newPosition probeCollisionState coastInputs).x| ≤ boundarySize ∧
      |(newPosition probeCollisionState coastInputs).z| ≤ boundarySize := by
  rw [probe_newPosition]
  unfold boundarySize
  constructor <;> (rw [abs_le]; constructor <;> norm_num)

/-- Claim C1 (amended): on a frame whose post-translation position stays
inside the boundary, if the first obstacle in iteration order is within
`treeRadius + carRadius` of the post-translation position, the step performs
the collision response — the position is copied back to the value captured
before the step, the speed becomes `-0.5` times the speed at the moment the
collision is detected, vibration becomes active with the current time
recorded — followed only by the vibration block, and the outcome is
independent of the obstacles after the first (first collision wins).  The
in-bounds proviso is forced: the boundary check precedes the collision check
in the source, so an out-of-bounds colliding frame respawns instead. -/
theorem collision_first_hit_spec (s : GameState) (inp : Inputs) (env : Env)
    (o : Vec3) (rest : List Vec3) (hobs : env.obstacles = o :: rest)
    (hx : |(newPosition s inp).x| ≤ boundarySize)
    (hz : |(newPosition s inp).z| ≤ boundarySize)
    (hhit : checkCollision (newPosition s inp) o) :
    updateCarMovement s inp env = vibrationPhase env (collisionOutcome s inp env) ∧
    (collisionOutcome s inp env).carPos = s.carPos ∧
    (collisionOutcome s inp env).speed = -(updatedSpeed s inp) * 0.5 ∧
    (collisionOutcome s inp env).isVibrating = true ∧
    (collisionOutcome s inp env).vibrationTime = env.now :=
  ⟨update_collision_eq s inp env o rest hobs hx hz hhit, rfl, rfl, rfl, rfl⟩

/-- Witness for C1: a concrete coasting frame at the spawn point with one
tree straight ahead; the collision hypothesis holds and the step equals the
collision response plus vibration. -/
theorem collision_first_hit_spec_witness :
    checkCollision (newPosition probeCollisionState coastInputs) ⟨0, 0, 0⟩ ∧
    updateCarMovement probeCollisionState coastInputs probeCollisionEnv =
      vibrationPhase probeCollisionEnv
        (collisionOutcome probeCollisionState coastInputs probeCollisionEnv) :=
  ⟨probe_hit,
    (collision_first_hit_spec probeCollisionState coastInputs probeCollisionEnv
      ⟨0, 0, 0⟩ [] rfl probe_inBounds.1 probe_inBounds.2 probe_hit).1⟩

/-- Counterexample for C1 as frozen: a frame whose post-translation position
is both within collision range of the first (and only) obstacle and out of
bounds.  The step respawns: the position becomes the spawn point, not the
pre-step position, and the speed becomes `0`, not `-0.5` times the detected
speed, and vibration stays off. -/
theorem collision_preempted_by_respawn :
    cex1Env.obstacles = [cex1Obstacle] ∧
    checkCollision (newPosition cex1State coastInputs) cex1Obstacle ∧
    (updateCarMovement cex1State coastInputs cex1Env).carPos = spawnPoint ∧
    (updateCarMovement cex1State coastInputs cex1Env).carPos ≠ cex1State.carPos ∧
    (updateCarMovement cex1State coastInputs cex1Env).speed = 0 ∧
    -(updatedSpeed cex1State coastInputs) * 0.5 ≠ (0 : ℝ) ∧
    (updateCarMovement cex1State coastInputs cex1Env).isVibrating = false := by
  have hpos : newPosition cex1State coastInputs = ⟨100, 0.5, 500.104⟩ := by
    norm_num [newPosition, updatedSpeed, updatedRotY, cex1State, initialState,
      coastInputs]
  have hout : |(newPosition cex1State coastInputs).x| > boundarySize ∨
      |(newPosition cex1State coastInputs).z| > boundarySize := by
    right
    rw [hpos]
    show boundarySize < |(500.104 : ℝ)|
    rw [abs_of_pos] <;> norm_num [boundarySize]
  have hstep := update_outBounds cex1State coastInputs cex1Env hout
  refine ⟨rfl, ?_, ?_, ?_, ?_, ?_, ?_⟩
  · rw [checkCollision_iff, hpos]
    unfold cex1Obstacle
    norm_num
  · rw [hstep]
    rfl
  · rw [hstep]
    show spawnPoint ≠ cex1State.carPos
    unfold spawnPoint cex1State
    simp only [Vec3.mk.injEq]
    norm_num
  · rw [hstep]
    rfl
  · have : updatedSpeed cex1State coastInputs = 1.9 := by
      norm_num [updatedSpeed, cex1State, initialState, coastInputs]
    rw [this]
    norm_num
  · rw [hstep]
    rfl

/-- Claim C10: on an in-bounds colliding frame, only the position is
restored to the value captured at the start of the step: the heading keeps
the turn applied earlier in the frame
(`heading + turnSpeed * (|speed| / maxSpeed)` per held turn flag, with the
updated speed), the speed is not restored but negated and halved, and the
particle list, camera fields and mode flags keep their post-update values. -/
theorem collision_selective_revert_spec (s : GameState) (inp : Inputs) (env : Env)
    (o : Vec3) (rest : List Vec3) (hobs : env.obstacles = o :: rest)
    (hx : |(newPosition s inp).x| ≤ boundarySize)
    (hz : |(newPosition s inp).z| ≤ boundarySize)
    (hhit : checkCollision (newPosition s inp) o) :
    updateCarMovement s inp env = vibrationPhase env (collisionOutcome s inp env) ∧
    (collisionOutcome s inp env).carPos = s.carPos ∧
    (collisionOutcome s inp env).carRotY =
      s.carRotY +
        (if inp.isTurningLeft then turnSpeed * (|updatedSpeed s inp| / maxSpeed) else 0) -
        (if inp.isTurningRight then turnSpeed * (|updatedSpeed s inp| / maxSpeed) else 0) ∧
    (collisionOutcome s inp env).speed = -(updatedSpeed s inp) * 0.5 ∧
    (collisionOutcome s inp env).boostParticles =
      tickParticles (spawnedParticles s inp env) ∧
    (collisionOutcome s inp env).cameraPos = (preBoundary s inp env).cameraPos ∧
    (collisionOutcome s inp env).cameraLook = (preBoundary s inp env).cameraLook ∧
    (collisionOutcome s inp env).isOrbitMode = s.isOrbitMode :=
  ⟨update_collision_eq s inp env o rest hobs hx hz hhit, rfl,
    updatedRotY_eq s inp, rfl, rfl, rfl, rfl, rfl⟩

/-- Witness for C10: the concrete colliding frame of the C1 witness; the
collision outcome keeps the (unchanged) heading and ticks the particles. -/
theorem collision_selective_revert_spec_witness :
    checkCollision (newPosition probeCollisionState coastInputs) ⟨0, 0, 0⟩ ∧
    (collisionOutcome probeCollisionState coastInputs probeCollisionEnv).carPos =
      probeCollisionState.carPos :=
  ⟨probe_hit,
    (collision_selective_revert_spec probeCollisionState coastInputs
      probeCollisionEnv ⟨0, 0, 0⟩ [] rfl probe_inBounds.1 probe_inBounds.2
      probe_hit).2.1⟩

/-- Claim C2: on any frame whose post-translation position leaves the
boundary on `x` or `z`, the resulting state has the spawn-point position,
zero heading, zero speed, and vibration cleared. -/
theorem boundary_respawn_spec (s : GameState) (inp : Inputs) (env : Env)
    (h : |(newPosition s inp).x| > boundarySize ∨
      |(newPosition s inp).z| > boundarySize) :
    (updateCarMovement s inp env).carPos = spawnPoint ∧
    (updateCarMovement s inp env).carRotY = 0 ∧
    (updateCarMovement s inp env).speed = 0 ∧
    (updateCarMovement s inp env).isVibrating = false := by
  rw [update_outBounds s inp env h]
  exact ⟨rfl, rfl, rfl, rfl⟩

/-- Witness for C2: a car already at `z = 600` coasting at zero speed. -/
theorem boundary_respawn_spec_witness :
    (|(newPosition wit2State coastInputs).x| > boundarySize ∨
      |(newPosition wit2State coastInputs).z| > boundarySize) ∧
    (updateCarMovement wit2State coastInputs quietEnv).carPos = spawnPoint := by
  have h : |(newPosition wit2State coastInputs).x| > boundarySize ∨
      |(newPosition wit2State coastInputs).z| > boundarySize := by
    right
    norm_num [newPosition, updatedSpeed, updatedRotY, wit2State, initialState,
      coastInputs, boundarySize]
  exact ⟨h, (boundary_respawn_spec wit2State coastInputs quietEnv h).1⟩

/-- Claim C3 (amended): the source order differs from the spec's listed
order.  The camera update and the boost-particle maintenance run before the
boundary check, and the boundary check runs before the collision check; a
boundary-triggered respawn therefore short-circuits only the collision check
and the vibration block, while the respawn frame still carries the decayed
particle queue and the updated chase camera. -/
theorem frame_order_spec (s : GameState) (inp : Inputs) (env : Env)
    (h : |(newPosition s inp).x| > boundarySize ∨
      |(newPosition s inp).z| > boundarySize) :
    updateCarMovement s inp env = respawnCar (preBoundary s inp env) ∧
    (updateCarMovement s inp env).boostParticles =
      tickParticles (spawnedParticles s inp env) ∧
    (updateCarMovement s inp env).cameraPos = (preBoundary s inp env).cameraPos ∧
    (updateCarMovement s inp env).cameraLook = (preBoundary s inp env).cameraLook ∧
    (updateCarMovement s inp env).carPos = spawnPoint ∧
    (updateCarMovement s inp env).speed = 0 ∧
    (updateCarMovement s inp env).isVibrating = false := by
  have he := update_outBounds s inp env h
  rw [he]
  exact ⟨rfl, rfl, rfl, rfl, rfl, rfl, rfl⟩

/-- Witness for C3: a car already past the boundary on `x`. -/
theorem frame_order_spec_witness :
    (|(newPosition wit3State coastInputs).x| > boundarySize ∨
      |(newPosition wit3State coastInputs).z| > boundarySize) ∧
    updateCarMovement wit3State coastInputs quietEnv =
      respawnCar (preBoundary wit3State coastInputs quietEnv) := by
  have h : |(newPosition wit3State coastInputs).x| > boundarySize ∨
      |(newPosition wit3State coastInputs).z| > boundarySize := by
    left
    norm_num [newPosition, updatedSpeed, updatedRotY, wit3State, initialState,
      coastInputs, boundarySize]
  exact ⟨h, (frame_order_spec wit3State coastInputs quietEnv h).1⟩

/-- Counterexample for C3 as frozen: a frame where the collision condition
holds for the (only) obstacle and the boundary is also crossed, with one
live flame in the queue.  Had the collision check run first (spec step 4
before step 5), the position would have been reverted in bounds and no
respawn would occur; instead the result is the spawn point.  And although
this is a respawn frame, the particle maintenance of spec step 7 has
executed: the flame's opacity has dropped from `0.8` to `0.65` and its scale
has shrunk by `0.95`. -/
theorem frame_order_counterexample :
    cex3Env.obstacles = [cex3Obstacle] ∧
    checkCollision (newPosition cex3State coastInputs) cex3Obstacle ∧
    (|(newPosition cex3State coastInputs).z| > boundarySize) ∧
    (updateCarMovement cex3State coastInputs cex3Env).carPos = spawnPoint ∧
    spawnPoint ≠ cex3State.carPos ∧
    (updateCarMovement cex3State coastInputs cex3Env).boostParticles =
      [{ position := ⟨0, 0, 0⟩, rotY := 0, opacity := 0.65,
          scale := ⟨0.95, 0.95, 0.95⟩ }] := by
  have hpos : newPosition cex3State coastInputs = ⟨0, 0.5, 500.204⟩ := by
    norm_num [newPosition, updatedSpeed, updatedRotY, cex3State, initialState,
      coastInputs]
  have hout : |(newPosition cex3State coastInputs).x| > boundarySize ∨
      |(newPosition cex3State coastInputs).z| > boundarySize := by
    right
    rw [hpos]
    show boundarySize < |(500.204 : ℝ)|
    rw [abs_of_pos] <;> norm_num [boundarySize]
  have hstep := update_outBounds cex3State coastInputs cex3Env hout
  refine ⟨rfl, ?_, ?_, ?_, ?_, ?_⟩
  · rw [checkCollision_iff, hpos]
    unfold cex3Obstacle
    norm_num
  · rw [hpos]
    show boundarySize < |(500.204 : ℝ)|
    rw [abs_of_pos] <;> norm_num [boundarySize]
  · rw [hstep]
    rfl
  · unfold spawnPoint cex3State
    simp only [Vec3.mk.injEq]
    norm_num
  · rw [hstep]
    show tickParticles (spawnedParticles cex3State coastInputs cex3Env) = _
    norm_num [tickParticles, spawnedParticles, decayParticle, smulV,
      cex3State, cexParticle, initialState, coastInputs]

/-- Claim C4 (amended): the ceiling `currentMaxSpeed` used both to clamp
acceleration and to floor braking equals the boosted ceiling if and only if
`isBoosting` is set, independently of `accelerate`; in particular braking
while the boost flag is held floors the speed at `-boostMaxSpeed/2 = -5`,
and only with the boost flag released at `-normalMaxSpeed/2 = -1`. -/
theorem brake_floor_spec (s : GameState) (inp : Inputs)
    (hA : inp.isAccelerating = false) (hB : inp.isBraking = true) :
    updatedSpeed s inp =
      max (s.speed - acceleration * 2) (-(currentMaxSpeed inp) / 2) ∧
    (∀ b : Bool, currentMaxSpeed { inp with isAccelerating := b } =
      currentMaxSpeed inp) ∧
    (inp.isBoosting = true → -(currentMaxSpeed inp) / 2 = -5) ∧
    (inp.isBoosting = false → -(currentMaxSpeed inp) / 2 = -1) := by
  refine ⟨?_, fun b => rfl, fun hb => ?_, fun hb => ?_⟩
  · unfold updatedSpeed
    rw [hA, hB]
    simp
  · unfold currentMaxSpeed
    rw [hb]
    norm_num [boostMaxSpeed]
  · unfold currentMaxSpeed
    rw [hb]
    norm_num [normalMaxSpeed]

/-- Witness for C4: braking with boost held, from speed `0`. -/
theorem brake_floor_spec_witness :
    brakeBoostInputs.isAccelerating = false ∧
    brakeBoostInputs.isBraking = true ∧
    updatedSpeed initialState brakeBoostInputs =
      max (initialState.speed - acceleration * 2)
        (-(currentMaxSpeed brakeBoostInputs) / 2) :=
  ⟨rfl, rfl, (brake_floor_spec initialState brakeBoostInputs rfl rfl).1⟩

/-- Counterexample for C4 as frozen: braking at speed `-2` with boost held
but accelerate released.  The claim predicts flooring at
`-normalMaxSpeed/2 = -1`; the code yields `-2.2`, strictly below that
floor, because the ceiling selector ignores `accelerate`. -/
theorem brake_floor_counterexample :
    brakeBoostInputs.isAccelerating = false ∧
    brakeBoostInputs.isBraking = true ∧
    brakeBoostInputs.isBoosting = true ∧
    (updateCarMovement cex4State brakeBoostInputs quietEnv).speed = -2.2 ∧
    (-2.2 : ℝ) < -(normalMaxSpeed / 2) := by
  have hsp : updatedSpeed cex4State brakeBoostInputs = -2.2 := by
    norm_num [updatedSpeed, cex4State, initialState, brakeBoostInputs,
      acceleration, currentMaxSpeed, boostMaxSpeed, max_def]
  have hrot : updatedRotY cex4State brakeBoostInputs = 0 := by
    rw [updatedRotY_noturn _ _ rfl rfl]
    rfl
  have hpos := newPosition_rot0 cex4State brakeBoostInputs hrot
  have hx' : |(newPosition cex4State brakeBoostInputs).x| ≤ boundarySize := by
    rw [hpos]
    show |cex4State.carPos.x| ≤ boundarySize
    rw [abs_le]
    constructor <;> norm_num [cex4State, initialState, boundarySize]
  have hz' : |(newPosition cex4State brakeBoostInputs).z| ≤ boundarySize := by
    rw [hpos, hsp]
    show |cex4State.carPos.z + -2.2 * 0.16| ≤ boundarySize
    rw [abs_le]
    constructor <;> norm_num [cex4State, initialState, boundarySize]
  have hq := step_quiet cex4State brakeBoostInputs quietEnv rfl rfl hx' hz'
  refine ⟨rfl, rfl, rfl, ?_, by norm_num [normalMaxSpeed]⟩
  rw [hq, preBoundary_speed, hsp]

/-- Claim C5 (amended): over all reachable states, the speed lies in
`[-boostMaxSpeed/2, boostMaxSpeed] = [-5, 10]`, so its magnitude never
exceeds the boosted ceiling.  The frozen claim's stronger bound — the
normal ceiling whenever not boosting, up to collision bounce-back — fails:
after a boost ends, coasting keeps the speed above the normal ceiling with
no collision involved. -/
theorem speed_invariant_spec (s : GameState) (h : Reachable s) :
    |s.speed| ≤ boostMaxSpeed ∧
    -(boostMaxSpeed / 2) ≤ s.speed ∧ s.speed ≤ boostMaxSpeed := by
  obtain ⟨h1, h2⟩ := reachable_speed_bounds s h
  unfold boostMaxSpeed
  refine ⟨?_, by linarith, by linarith⟩
  rw [abs_le]
  exact ⟨by linarith, by linarith⟩

/-- Witness for C5: the invariant instantiated at the initial state. -/
theorem speed_invariant_spec_witness :
    |initialState.speed| ≤ boostMaxSpeed :=
  (speed_invariant_spec initialState Reachable.init).1

/-- Counterexample for C5 as frozen: accelerate with boost for 22 frames
(speed `2.2`), then release every key.  The coasting frame has no boost
flag and no collision, yet the resulting reachable state's speed is
`2.2 * 0.95 = 2.09`, above the normal ceiling `2`. -/
theorem speed_ceiling_counterexample :
    Reachable (updateCarMovement (accelRun true 22) coastInputs quietEnv) ∧
    coastInputs.isBoosting = false ∧
    findCollision (newPosition (accelRun true 22) coastInputs)
      quietEnv.obstacles = none ∧
    (updateCarMovement (accelRun true 22) coastInputs quietEnv).speed = 2.09 ∧
    normalMaxSpeed < 2.09 := by
  have hcm : ((22 : ℕ) : ℝ) * 0.1 ≤ currentMaxSpeed (runInputs true) := by
    push_cast
    norm_num [currentMaxSpeed, runInputs, boostMaxSpeed]
  obtain ⟨hS, hR, hX, hY, hZ0, hZ1, hV⟩ :=
    accelRun_spec true 22 (by norm_num) hcm
  have hS2 : (accelRun true 22).speed = 2.2 := by
    rw [hS]
    norm_num
  have hsp : updatedSpeed (accelRun true 22) coastInputs = 2.09 := by
    rw [updatedSpeed_coast _ _ rfl rfl, hS2,
      show |(2.2 : ℝ)| = 2.2 from abs_of_pos (by norm_num)]
    norm_num
  have hrot : updatedRotY (accelRun true 22) coastInputs = 0 := by
    rw [updatedRotY_noturn _ _ rfl rfl, hR]
  have hpos := newPosition_rot0 (accelRun true 22) coastInputs hrot
  have hz22 : (accelRun true 22).carPos.z ≤ 35.2 := by
    norm_num at hZ1
    linarith
  have hx' : |(newPosition (accelRun true 22) coastInputs).x| ≤ boundarySize := by
    rw [hpos]
    show |(accelRun true 22).carPos.x| ≤ boundarySize
    rw [hX, abs_le]
    constructor <;> norm_num [boundarySize]
  have hz' : |(newPosition (accelRun true 22) coastInputs).z| ≤ boundarySize := by
    rw [hpos, hsp]
    show |(accelRun true 22).carPos.z + 2.09 * 0.16| ≤ boundarySize
    rw [abs_le]
    unfold boundarySize
    constructor <;> linarith
  have hq := step_quiet (accelRun true 22) coastInputs quietEnv rfl hV hx' hz'
  refine ⟨Reachable.step _ _ _ (accelRun_reachable true 22), rfl,
    findCollision_nil _, ?_, by norm_num [normalMaxSpeed]⟩
  rw [hq, preBoundary_speed, hsp]

/-- Claim C6: on a frame with accelerate held and brake released, the new
speed never exceeds `currentMaxSpeed`, and it does not decrease as long as
the old speed is at most the active ceiling; concretely, ten accelerating
frames from rest with acceleration `0.1` and ceiling `2` give speed exactly
`1.0`. -/
theorem accel_monotone_spec :
    (∀ (s : GameState) (inp : Inputs),
      inp.isAccelerating = true → inp.isBraking = false →
      (updatedSpeed s inp ≤ currentMaxSpeed inp ∧
        (s.speed ≤ currentMaxSpeed inp → s.speed ≤ updatedSpeed s inp))) ∧
    (accelRun false 10).speed = 1 := by
  constructor
  · intro s inp hA _hB
    rw [updatedSpeed_accel s inp hA]
    refine ⟨min_le_right _ _, fun hle => le_min ?_ hle⟩
    unfold acceleration
    linarith
  · have hcm : ((10 : ℕ) : ℝ) * 0.1 ≤ currentMaxSpeed (runInputs false) := by
      push_cast
      norm_num [currentMaxSpeed, runInputs, normalMaxSpeed]
    have h10 := (accelRun_spec false 10 (by norm_num) hcm).1
    rw [h10]
    norm_num

/-- Witness for C6: an accelerating frame from the initial state. -/
theorem accel_monotone_spec_witness :
    (runInputs false).isAccelerating = true ∧
    (runInputs false).isBraking = false ∧
    updatedSpeed initialState (runInputs false) ≤ currentMaxSpeed (runInputs false) :=
  ⟨rfl, rfl, (accel_monotone_spec.1 initialState (runInputs false) rfl rfl).1⟩

/-- Claim C7: the boost queue never exceeds 12 live entries in any reachable
state; the push of a flame pair keeps at most 12 entries and evicts only
from the front (the result is a suffix of the pushed list, so the oldest
entries go first); a particle survives a tick exactly when its decayed
opacity is still positive; and the decay step lowers opacity by exactly
`0.15` (a strict decrease) and shrinks the scale by the factor `0.95`. -/
theorem boost_queue_spec :
    (∀ s, Reachable s → s.boostParticles.length ≤ 12) ∧
    (∀ (l : List Particle) (p q : Particle),
      (createBoostQueue l p q).length = min (l.length + 2) 12 ∧
      List.IsSuffix (createBoostQueue l p q) (l ++ [p, q])) ∧
    (∀ (l : List Particle) (p : Particle),
      p ∈ tickParticles l ↔ p ∈ l.map decayParticle ∧ 0 < p.opacity) ∧
    (∀ p : Particle,
      (decayParticle p).opacity = p.opacity - 0.15 ∧
      (decayParticle p).opacity < p.opacity ∧
      (decayParticle p).scale = smulV 0.95 p.scale) := by
  refine ⟨reachable_particles_cap,
    fun l p q => ⟨createBoostQueue_length l p q, createBoostQueue_isSuffix l p q⟩,
    tickParticles_mem, fun p => ⟨rfl, ?_, rfl⟩⟩
  show p.opacity - 0.15 < p.opacity
  linarith

/-- Witness for C7: the cap at the initial state and the survival criterion
on a singleton queue. -/
theorem boost_queue_spec_witness :
    initialState.boostParticles.length ≤ 12 ∧
    (decayParticle cexParticle ∈ tickParticles [cexParticle] ↔
      decayParticle cexParticle ∈ [cexParticle].map decayParticle ∧
        0 < (decayParticle cexParticle).opacity) :=
  ⟨boost_queue_spec.1 initialState Reachable.init,
    boost_queue_spec.2.2.1 [cexParticle] (decayParticle cexParticle)⟩

/-- Claim C8 (amended): the two exhaust flames are spawned exactly on the
frames where accelerate is held, the boost flag is set, and the updated
speed exceeds the normal ceiling — the spawn sits inside the accelerate
branch, so boosting with accelerate released spawns nothing.  When it fires
it appends exactly the left and right flames (deterministic offsets from the
pre-step position and heading, randomised flicker scales); with accelerate
released the queue is left untouched by the spawn stage. -/
theorem boost_spawn_spec (s : GameState) (inp : Inputs) (env : Env)
    (hA : inp.isAccelerating = true) (hB : inp.isBoosting = true)
    (hsp : normalMaxSpeed < updatedSpeed s inp) :
    spawnedParticles s inp env =
      createBoostQueue s.boostParticles (leftFlame s env) (rightFlame s env) ∧
    (s.boostParticles.length ≤ 10 →
      spawnedParticles s inp env =
        s.boostParticles ++ [leftFlame s env, rightFlame s env]) ∧
    (leftFlame s env).position = addV s.carPos (leftOffset s.carRotY) ∧
    (rightFlame s env).position = addV s.carPos (rightOffset s.carRotY) ∧
    (leftFlame s env).scale = ⟨0.8 + env.f1 * 0.4, 0.8 + env.f2 * 0.4, 1⟩ ∧
    (rightFlame s env).scale = ⟨0.8 + env.f3 * 0.4, 0.8 + env.f4 * 0.4, 1⟩ ∧
    (∀ inp' : Inputs, inp'.isAccelerating = false →
      spawnedParticles s inp' env = s.boostParticles) := by
  have hmain : spawnedParticles s inp env =
      createBoostQueue s.boostParticles (leftFlame s env) (rightFlame s env) := by
    unfold spawnedParticles
    simp only [hA, hB, eq_self_iff_true, if_true, true_and]
    rw [if_pos hsp]
  refine ⟨hmain, fun hlen => ?_, rfl, rfl, rfl, rfl, fun inp' hA' => ?_⟩
  · rw [hmain, createBoostQueue_small _ _ _ hlen]
  · unfold spawnedParticles
    rw [hA']
    simp

/-- Witness for C8: accelerating with boost at speed `2.5`; the updated
speed `2.6` exceeds the normal ceiling and the queue update fires. -/
theorem boost_spawn_spec_witness :
    normalMaxSpeed < updatedSpeed wit8State (runInputs true) ∧
    spawnedParticles wit8State (runInputs true) quietEnv =
      createBoostQueue wit8State.boostParticles (leftFlame wit8State quietEnv)
        (rightFlame wit8State quietEnv) := by
  have h : normalMaxSpeed < updatedSpeed wit8State (runInputs true) := by
    rw [updatedSpeed_accel _ _ rfl]
    norm_num [wit8State, initialState, acceleration, currentMaxSpeed,
      runInputs, boostMaxSpeed, normalMaxSpeed, min_def]
  exact ⟨h, (boost_spawn_spec wit8State (runInputs true) quietEnv rfl rfl h).1⟩

/-- Counterexample for C8 as frozen: a frame with the boost flag set and
speed above the normal ceiling both before and after the speed update, but
with accelerate released.  No particle is spawned: the step's particle list
is empty, not a pair of flames. -/
theorem boost_spawn_counterexample :
    coastBoostInputs.isBoosting = true ∧
    normalMaxSpeed < cex8State.speed ∧
    normalMaxSpeed < updatedSpeed cex8State coastBoostInputs ∧
    (updateCarMovement cex8State coastBoostInputs quietEnv).boostParticles = [] := by
  refine ⟨rfl, ?_, ?_, ?_⟩
  · norm_num [cex8State, initialState, normalMaxSpeed]
  · rw [updatedSpeed_coast _ _ rfl rfl,
      show cex8State.speed = 3 from rfl,
      show |(3 : ℝ)| = 3 from abs_of_pos (by norm_num)]
    norm_num [normalMaxSpeed]
  · rw [particles_after_step]
    have hsp : spawnedParticles cex8State coastBoostInputs quietEnv = [] := by
      unfold spawnedParticles
      rw [show coastBoostInputs.isAccelerating = false from rfl]
      simp [cex8State, initialState]
    rw [hsp]
    rfl

/-- Claim C9 (amended): each camera toggle is a pure two-state flip, and a
double toggle restores the mode and leaves the pose — hence the chase
offset, a function of the heading — identical to never toggling.  On the
switch to Orbit the camera position is snapped to the chase position; but on
the switch back to Chase the registered handler changes nothing besides the
mode flag: there is no immediate recompute (that code exists only in the
never-registered `toggleCameraMode`), and the camera converges through the
per-frame lerp instead. -/
theorem camera_toggle_spec (s : GameState) :
    (toggleCamera (toggleCamera s)).isOrbitMode = s.isOrbitMode ∧
    (toggleCamera s).isOrbitMode = !s.isOrbitMode ∧
    (toggleCamera (toggleCamera s)).carRotY = s.carRotY ∧
    chaseOffset (toggleCamera (toggleCamera s)).carRotY = chaseOffset s.carRotY ∧
    (s.isOrbitMode = true → toggleCamera s = { s with isOrbitMode := false }) ∧
    (s.isOrbitMode = false →
      (toggleCamera s).cameraPos = addV s.carPos (chaseOffset s.carRotY)) := by
  unfold toggleCamera
  cases h : s.isOrbitMode <;> simp [h]

/-- Witness for C9: the double toggle and the Orbit-switch snap at the
initial state. -/
theorem camera_toggle_spec_witness :
    (toggleCamera (toggleCamera initialState)).isOrbitMode =
      initialState.isOrbitMode ∧
    (toggleCamera initialState).cameraPos =
      addV initialState.carPos (chaseOffset initialState.carRotY) :=
  ⟨(camera_toggle_spec initialState).1,
    (camera_toggle_spec initialState).2.2.2.2.2 rfl⟩

/-- Counterexample for C9 as frozen: orbit mode active with the camera at
`(100, 0, 0)`.  Toggling back to Chase leaves the camera position untouched
and in particular not equal to the recomputed chase position — the claimed
immediate recompute does not happen. -/
theorem camera_toggle_counterexample :
    cex9State.isOrbitMode = true ∧
    (toggleCamera cex9State).isOrbitMode = false ∧
    (toggleCamera cex9State).cameraPos = cex9State.cameraPos ∧
    (toggleCamera cex9State).cameraPos ≠
      addV (toggleCamera cex9State).carPos
        (chaseOffset (toggleCamera cex9State).carRotY) := by
  refine ⟨rfl, ?_, ?_, ?_⟩
  · simp [toggleCamera, cex9State, initialState]
  · simp [toggleCamera, cex9State, initialState]
  · norm_num [toggleCamera, cex9State, initialState, addV, chaseOffset,
      Vec3.mk.injEq]

end CarGame

end
